import Mathlib

/-!
Shallow embedding of the CHECKLOCKTIMEVERIFY micropayment-channel demo
(`micropayment-channel.py`): transaction data model, the channel parameter
object, and the sender/receiver channel state machines, together with
theorems about the behaviour of their operations.

Python integers are embedded as `Int` (field values, fees, amounts) or `Nat`
(lock-times, sequence numbers, output indices).  Python exceptions are
embedded as an explicit error type `PyErr` and fallible operations return
`Except PyErr _`.  Methods that may assign to `self` are embedded as state
transformers returning the (possibly updated) state paired with the result;
methods with no assignments return the state unchanged.

Cryptographic primitives are embedded symbolically: a signature digest is a
constructor application recording exactly the inputs the library hashes
(script, transaction, input index, hash type), and a secret key is an
arbitrary signing function from digests to byte lists.
-/

/-- Script opcode byte values used by the channel scripts. -/
def OP_IF : Nat := 0x63

def OP_ELSE : Nat := 0x67

def OP_ENDIF : Nat := 0x68

def OP_NOP2 : Nat := 0xb1

def OP_2DROP : Nat := 0x6d

def OP_DROP : Nat := 0x75

def OP_CHECKSIG : Nat := 0xac

def OP_CHECKSIGVERIFY : Nat := 0xad

/-- `SIGHASH_ALL` flag byte. -/
def SIGHASH_ALL : Nat := 0x01

/-- `SIGHASH_ANYONECANPAY` flag byte. -/
def SIGHASH_ANYONECANPAY : Nat := 0x80

/-- A transaction outpoint: `(txid, output index)` (`COutPoint`). -/
structure COutPoint where
  hash : List Nat
  n : Nat
deriving DecidableEq, Inhabited

/-- One element of a script: an opcode, a small-integer push, or a data
push.  A nested script pushed as data (as python-bitcoinlib does when a
`CScript` appears as an element) is embedded as a `data` push of the nested
script's serialization. -/
inductive ScriptElem where
  | op (code : Nat)
  | num (k : Int)
  | data (bs : List Nat)
deriving DecidableEq, Inhabited

/-- A script is its element list (`CScript` viewed through `list(...)`). -/
abbrev Script := List ScriptElem

/-- Symbolic serialization of one script element to bytes. -/
def serializeElem : ScriptElem → List Nat
  | .op code => [code]
  | .num k => [0x4f, k.natAbs]
  | .data bs => 0x4c :: bs.length :: bs

/-- Symbolic serialization of a script to bytes. -/
def serializeScript (s : Script) : List Nat :=
  (s.map serializeElem).flatten

/-- A transaction input (`CTxIn`). -/
structure CTxIn where
  prevout : COutPoint
  scriptSig : Script
  nSequence : Nat
deriving DecidableEq, Inhabited

/-- A transaction output (`CTxOut`). -/
structure CTxOut where
  nValue : Int
  scriptPubKey : Script
deriving DecidableEq, Inhabited

/-- A transaction (`CTransaction`). -/
structure CTransaction where
  vin : List CTxIn
  vout : List CTxOut
  nLockTime : Nat
  nVersion : Int
deriving DecidableEq, Inhabited

/-- A signature digest, recorded symbolically: `SignatureHash(script, tx,
inIdx, hashType)` is embedded as the constructor application holding exactly
those inputs. -/
inductive Digest where
  | sigHash (script : Script) (tx : CTransaction) (inIdx : Nat) (hashType : Nat)
deriving DecidableEq

/-- A secret key, embedded as its (opaque to us, arbitrary) signing
function from a digest to raw signature bytes. -/
structure Seckey where
  sign : Digest → List Nat

/-- Python exceptions raised (or mentioned by the specification) around the
channel code.  `valueError` carries the message of an explicit `raise
ValueError(...)`; `indexError` is a list index out of range; `typeError` is
the unhandled error from operating on `None`.  `invalidPayment` and
`noPayment` embed the specification's designed error kinds `InvalidPayment`
and `NoPayment`; the source never produces either. -/
inductive PyErr where
  | valueError (msg : String)
  | indexError
  | typeError
  | invalidPayment
  | noPayment
deriving DecidableEq

/-- Initial parameters of a micropayment channel (`MicropaymentParams`). -/
structure MicropaymentParams where
  sender_deposit_scriptPubKey : Script
  receiver_deposit_scriptPubKey : Script
  receiver_dest_scriptPubKey : Script
  expiry_nlocktime : Nat
  deposit_outpoint : COutPoint

/-- `MicropaymentParams.deposit_redeemScript`:
`IF <recv branch> ELSE <expiry> 1 NOP2 2DROP ENDIF <send branch>`. -/
def MicropaymentParams.deposit_redeemScript (p : MicropaymentParams) : Script :=
  [ScriptElem.op OP_IF] ++ p.receiver_deposit_scriptPubKey ++
    [ScriptElem.op OP_ELSE,
     ScriptElem.num (Int.ofNat p.expiry_nlocktime), ScriptElem.num 1,
     ScriptElem.op OP_NOP2, ScriptElem.op OP_2DROP,
     ScriptElem.op OP_ENDIF] ++
    p.sender_deposit_scriptPubKey

/-- `MicropaymentParams.make_payment_tx`: the standardized two-output
payment transaction.  The Python defaults `txin_scriptSig=CScript()` and
`nSequence=0xFFFFFFFF` are passed explicitly by every embedded caller. -/
def MicropaymentParams.make_payment_tx (p : MicropaymentParams)
    (change_nValue dest_nValue : Int)
    (sender_change_scriptPubKey : Script)
    (txin_scriptSig : Script)
    (nSequence : Nat) : CTransaction :=
  { vin := [{ prevout := p.deposit_outpoint,
              scriptSig := txin_scriptSig,
              nSequence := nSequence }],
    vout := [{ nValue := change_nValue, scriptPubKey := sender_change_scriptPubKey },
             { nValue := dest_nValue, scriptPubKey := p.receiver_dest_scriptPubKey }],
    nLockTime := 0,
    nVersion := 1 }

/-- `MicropaymentChannel.calc_payment_value`: the value of output `vout[1]`
(the receiver-destined output, addressed by fixed index); Python raises
`IndexError` when the transaction has fewer than two outputs. -/
def calc_payment_value (payment_tx : CTransaction) : Except PyErr Int :=
  match payment_tx.vout[1]? with
  | some txout => Except.ok txout.nValue
  | none => Except.error PyErr.indexError

/-- Micropayment channel state for receivers
(`ReceiverMicropaymentChannel`; the shared base-class fields are inlined). -/
structure ReceiverChannel where
  params : MicropaymentParams
  deposit_nValue : Int
  receiver_seckey : Seckey
  last_payment_tx : Option CTransaction

/-- `MicropaymentChannel.total_sent` on the receiver side: 0 if no payment
exists, else `calc_payment_value(last_payment_tx)`. -/
def ReceiverChannel.total_sent (st : ReceiverChannel) : Except PyErr Int :=
  match st.last_payment_tx with
  | none => Except.ok 0
  | some tx => calc_payment_value tx

/-- `ReceiverMicropaymentChannel.validate_payment_tx`: the source body is
only the comment `FIXME: implement!`, so the method does nothing and always
succeeds. -/
def ReceiverChannel.validate_payment_tx (_st : ReceiverChannel)
    (_payment_tx : CTransaction) : Except PyErr Unit :=
  Except.ok ()

/-- `ReceiverMicropaymentChannel.recv_payment_tx`: validate, read the
payment value, store the transaction if it is the first or strictly
increases the value, and return the (delta) value. -/
def ReceiverChannel.recv_payment_tx (st : ReceiverChannel)
    (payment_tx : CTransaction) : ReceiverChannel × Except PyErr Int :=
  match st.validate_payment_tx payment_tx with
  | Except.error e => (st, Except.error e)
  | Except.ok () =>
    match calc_payment_value payment_tx with
    | Except.error e => (st, Except.error e)
    | Except.ok payment_value =>
      match st.last_payment_tx with
      | none => ({ st with last_payment_tx := some payment_tx }, Except.ok payment_value)
      | some last =>
        match calc_payment_value last with
        | Except.error e => (st, Except.error e)
        | Except.ok last_value =>
          let delta_nValue := payment_value - last_value
          if delta_nValue > 0 then
            ({ st with last_payment_tx := some payment_tx }, Except.ok delta_nValue)
          else
            (st, Except.ok delta_nValue)

/-- `ReceiverMicropaymentChannel.make_finalization_tx`: re-sign the last
accepted payment transaction's single input under `SIGHASH_ALL` and append
`{signature, 1, deposit_redeemScript}` to its unlocking script, keeping the
outputs, lock-time and version.  With `last_payment_tx = None` the Python
call `SignatureHash(..., None, 0, ...)` raises an unhandled none-access
error, embedded as `typeError`; `SignatureHash`'s own input-index range
check on an empty `vin` raises a `ValueError`. -/
def ReceiverChannel.make_finalization_tx (st : ReceiverChannel) :
    Except PyErr CTransaction :=
  match st.last_payment_tx with
  | none => Except.error PyErr.typeError
  | some last =>
    match last.vin[0]? with
    | none => Except.error (PyErr.valueError "inIdx 0 out of range")
    | some txin0 =>
      let sighash := Digest.sigHash st.params.deposit_redeemScript last 0 SIGHASH_ALL
      let sig := st.receiver_seckey.sign sighash ++ [SIGHASH_ALL]
      let signed_scriptSig : Script :=
        txin0.scriptSig ++
          [ScriptElem.data sig, ScriptElem.num 1,
           ScriptElem.data (serializeScript st.params.deposit_redeemScript)]
      Except.ok
        { vin := [{ prevout := txin0.prevout,
                    scriptSig := signed_scriptSig,
                    nSequence := txin0.nSequence }],
          vout := last.vout,
          nLockTime := last.nLockTime,
          nVersion := last.nVersion }

/-- Micropayment channel state for senders
(`SenderMicropaymentChannel`; the shared base-class fields are inlined). -/
structure SenderChannel where
  params : MicropaymentParams
  deposit_nValue : Int
  sender_seckey : Seckey
  sender_change_scriptPubKey : Script
  last_payment_tx : Option CTransaction

/-- `MicropaymentChannel.total_sent` on the sender side: 0 if no payment
exists, else `calc_payment_value(last_payment_tx)`. -/
def SenderChannel.total_sent (st : SenderChannel) : Except PyErr Int :=
  match st.last_payment_tx with
  | none => Except.ok 0
  | some tx => calc_payment_value tx

/-- `SenderMicropaymentChannel.make_payment_tx`: reject a negative delta,
compute the change value and reject a negative change, then build and sign
the two-output payment transaction under
`SIGHASH_ANYONECANPAY | SIGHASH_ALL`.  No assignment to `self` occurs, so
the returned state is the input state in every branch. -/
def SenderChannel.make_payment_tx (st : SenderChannel)
    (delta_amount : Int) (fee : Int) :
    SenderChannel × Except PyErr CTransaction :=
  if delta_amount < 0 then
    (st, Except.error (PyErr.valueError "Amount to send must be non-negative"))
  else
    match st.total_sent with
    | Except.error e => (st, Except.error e)
    | Except.ok ts =>
      let change_nValue := st.deposit_nValue - ts - delta_amount - fee
      if change_nValue < 0 then
        (st, Except.error (PyErr.valueError "Amount greather than unspent deposit"))
      else
        let unsigned_tx := st.params.make_payment_tx change_nValue
          (st.deposit_nValue - change_nValue - fee)
          st.sender_change_scriptPubKey [] 0xFFFFFFFF
        let sighash := Digest.sigHash st.params.deposit_redeemScript unsigned_tx 0
          (SIGHASH_ANYONECANPAY ||| SIGHASH_ALL)
        let sig := st.sender_seckey.sign sighash ++ [SIGHASH_ANYONECANPAY ||| SIGHASH_ALL]
        let signed_tx := st.params.make_payment_tx change_nValue
          (st.deposit_nValue - change_nValue - fee)
          st.sender_change_scriptPubKey [ScriptElem.data sig] 0xFFFFFFFF
        (st, Except.ok signed_tx)

/-- `SenderMicropaymentChannel.send_payment`: make a payment transaction
and, on success, store it in `last_payment_tx`; an exception propagates
before the assignment, leaving the state untouched. -/
def SenderChannel.send_payment (st : SenderChannel)
    (delta_amount : Int) (fee : Int) :
    SenderChannel × Except PyErr CTransaction :=
  match st.make_payment_tx delta_amount fee with
  | (st1, Except.error e) => (st1, Except.error e)
  | (st1, Except.ok payment_tx) =>
    ({ st1 with last_payment_tx := some payment_tx }, Except.ok payment_tx)

/-- `SenderMicropaymentChannel.make_refund_tx`: a single-input (deposit
outpoint, sequence 0), single-output (deposit value minus fee, to the
sender's change script) transaction locked to the expiry lock-time, signed
under `SIGHASH_ALL` with scriptSig `{signature, 0, deposit_redeemScript}`.
No assignment to `self` occurs, so the returned state is the input state. -/
def SenderChannel.make_refund_tx (st : SenderChannel) (fee : Int) :
    SenderChannel × CTransaction :=
  let txin0 : CTxIn :=
    { prevout := st.params.deposit_outpoint, scriptSig := [], nSequence := 0 }
  let unsigned_tx : CTransaction :=
    { vin := [txin0],
      vout := [{ nValue := st.deposit_nValue - fee,
                 scriptPubKey := st.sender_change_scriptPubKey }],
      nLockTime := st.params.expiry_nlocktime,
      nVersion := 1 }
  let sighash := Digest.sigHash st.params.deposit_redeemScript unsigned_tx 0 SIGHASH_ALL
  let sig := st.sender_seckey.sign sighash ++ [SIGHASH_ALL]
  let signed_scriptSig : Script :=
    [ScriptElem.data sig, ScriptElem.num 0,
     ScriptElem.data (serializeScript st.params.deposit_redeemScript)]
  (st,
   { vin := [{ prevout := txin0.prevout,
               scriptSig := signed_scriptSig,
               nSequence := 0 }],
     vout := unsigned_tx.vout,
     nLockTime := unsigned_tx.nLockTime,
     nVersion := 1 })

/-- Fold a list of submitted payment transactions through
`recv_payment_tx`, keeping the evolving receiver state. -/
def recv_many (st : ReceiverChannel) (txs : List CTransaction) : ReceiverChannel :=
  txs.foldl (fun s tx => (s.recv_payment_tx tx).1) st

/-- The signed payment transaction that `make_payment_tx` returns on
success, as a function of the state, the delta, the fee and the current
total sent. -/
def payment_tx_of (st : SenderChannel) (delta_amount fee ts : Int) : CTransaction :=
  let change_nValue := st.deposit_nValue - ts - delta_amount - fee
  let unsigned_tx := st.params.make_payment_tx change_nValue
    (st.deposit_nValue - change_nValue - fee)
    st.sender_change_scriptPubKey [] 0xFFFFFFFF
  let sig := st.sender_seckey.sign
      (Digest.sigHash st.params.deposit_redeemScript unsigned_tx 0
        (SIGHASH_ANYONECANPAY ||| SIGHASH_ALL)) ++
    [SIGHASH_ANYONECANPAY ||| SIGHASH_ALL]
  st.params.make_payment_tx change_nValue
    (st.deposit_nValue - change_nValue - fee)
    st.sender_change_scriptPubKey [ScriptElem.data sig] 0xFFFFFFFF

lemma make_payment_tx_ok (st : SenderChannel) (d fee ts : Int)
    (hs : st.total_sent = Except.ok ts) (hd : 0 ≤ d)
    (hc : 0 ≤ st.deposit_nValue - ts - d - fee) :
    st.make_payment_tx d fee = (st, Except.ok (payment_tx_of st d fee ts)) := by
  simp only [SenderChannel.make_payment_tx, hs, if_neg (not_lt.mpr hd),
    if_neg (not_lt.mpr hc), payment_tx_of]

lemma make_payment_tx_fst (st : SenderChannel) (d fee : Int) :
    (st.make_payment_tx d fee).1 = st := by
  by_cases hd : d < 0
  · simp [SenderChannel.make_payment_tx, hd]
  · cases hts : st.total_sent with
    | error e => simp [SenderChannel.make_payment_tx, hd, hts]
    | ok ts =>
      by_cases hc : st.deposit_nValue - ts - d - fee < 0 <;>
        simp [SenderChannel.make_payment_tx, hd, hts, hc]

lemma make_payment_tx_ok_inv (st : SenderChannel) (d fee : Int) (tx : CTransaction)
    (h : (st.make_payment_tx d fee).2 = Except.ok tx) :
    ∃ ts, st.total_sent = Except.ok ts ∧ 0 ≤ d ∧
      0 ≤ st.deposit_nValue - ts - d - fee ∧ tx = payment_tx_of st d fee ts := by
  by_cases hd : d < 0
  · simp [SenderChannel.make_payment_tx, hd] at h
  · cases hts : st.total_sent with
    | error e => simp [SenderChannel.make_payment_tx, hd, hts] at h
    | ok ts =>
      by_cases hc : st.deposit_nValue - ts - d - fee < 0
      · simp [SenderChannel.make_payment_tx, hd, hts, hc] at h
      · refine ⟨ts, rfl, not_lt.mp hd, not_lt.mp hc, ?_⟩
        simp [SenderChannel.make_payment_tx, hd, hts, hc, payment_tx_of] at h
        exact h.symm

lemma send_payment_snd (st : SenderChannel) (d fee : Int) :
    (st.send_payment d fee).2 = (st.make_payment_tx d fee).2 := by
  rcases h : st.make_payment_tx d fee with ⟨st1, r⟩
  cases r <;> simp [SenderChannel.send_payment, h]

lemma send_payment_err (st : SenderChannel) (d fee : Int) (e : PyErr)
    (h : (st.make_payment_tx d fee).2 = Except.error e) :
    st.send_payment d fee = (st, Except.error e) := by
  have hfst := make_payment_tx_fst st d fee
  rcases h1 : st.make_payment_tx d fee with ⟨st1, r⟩
  rw [h1] at h hfst
  simp only at h hfst
  subst h hfst
  simp [SenderChannel.send_payment, h1]

lemma send_payment_ok (st : SenderChannel) (d fee : Int) (tx : CTransaction)
    (h : (st.make_payment_tx d fee).2 = Except.ok tx) :
    st.send_payment d fee = ({ st with last_payment_tx := some tx }, Except.ok tx) := by
  have hfst := make_payment_tx_fst st d fee
  rcases h1 : st.make_payment_tx d fee with ⟨st1, r⟩
  rw [h1] at h hfst
  simp only at h hfst
  subst h hfst
  simp [SenderChannel.send_payment, h1]

/-- Concrete secret key fixture: signs every digest as the byte `[0]`. -/
def cSeckey : Seckey := ⟨fun _ => [0]⟩

/-- Concrete channel parameter fixture. -/
def cParams : MicropaymentParams :=
  { sender_deposit_scriptPubKey := [ScriptElem.data [1], ScriptElem.op OP_CHECKSIG],
    receiver_deposit_scriptPubKey := [ScriptElem.data [2], ScriptElem.op OP_CHECKSIGVERIFY],
    receiver_dest_scriptPubKey := [ScriptElem.data [3]],
    expiry_nlocktime := 1000000000,
    deposit_outpoint := { hash := [9], n := 0 } }

/-- Concrete sender change script fixture. -/
def cChangeScript : Script := [ScriptElem.data [4]]

/-- A stored payment transaction paying the receiver 6 at output 1. -/
def cTxStored : CTransaction :=
  { vin := [{ prevout := cParams.deposit_outpoint,
              scriptSig := [ScriptElem.data [5]], nSequence := 0xFFFFFFFF }],
    vout := [{ nValue := 2, scriptPubKey := cChangeScript },
             { nValue := 6, scriptPubKey := cParams.receiver_dest_scriptPubKey }],
    nLockTime := 0, nVersion := 1 }

/-- A transaction spending a different outpoint than the deposit and paying
the receiver only 5 at output 1. -/
def cTxBad : CTransaction :=
  { vin := [{ prevout := { hash := [8], n := 3 }, scriptSig := [], nSequence := 0 }],
    vout := [{ nValue := 3, scriptPubKey := [] },
             { nValue := 5, scriptPubKey := [] }],
    nLockTime := 0, nVersion := 1 }

/-- A transaction with a single output, so output index 1 does not exist. -/
def cTxShort : CTransaction :=
  { vin := [{ prevout := cParams.deposit_outpoint, scriptSig := [], nSequence := 0 }],
    vout := [{ nValue := 7, scriptPubKey := [] }],
    nLockTime := 0, nVersion := 1 }

/-- Receiver fixture that has accepted no payment yet. -/
def cRecvEmpty : ReceiverChannel :=
  { params := cParams, deposit_nValue := 10,
    receiver_seckey := cSeckey, last_payment_tx := none }

/-- Receiver fixture that has accepted `cTxStored` (value 6). -/
def cRecvFull : ReceiverChannel :=
  { params := cParams, deposit_nValue := 10,
    receiver_seckey := cSeckey, last_payment_tx := some cTxStored }

/-- Sender fixture with deposit value 10 and no payment sent yet. -/
def cSender : SenderChannel :=
  { params := cParams, deposit_nValue := 10, sender_seckey := cSeckey,
    sender_change_scriptPubKey := cChangeScript, last_payment_tx := none }

/-- Extract the transaction from a successful result (default on failure). -/
def okTx (r : Except PyErr CTransaction) : CTransaction :=
  match r with
  | Except.ok tx => tx
  | Except.error _ => default

lemma calc_payment_tx_of (st : SenderChannel) (d fee ts : Int) :
    calc_payment_value (payment_tx_of st d fee ts) =
      Except.ok (st.deposit_nValue - (st.deposit_nValue - ts - d - fee) - fee) := rfl

/-- C1: the source's `validate_payment_tx` is the unimplemented stub
`FIXME: implement!`, so it succeeds on every transaction; evaluated at a
concrete receiver state that has accepted a payment of value 6,
`recv_payment_tx` accepts — with no `InvalidPayment` failure — a
transaction that spends a different outpoint than the deposit and pays the
receiver only 5, merely returning the negative delta −1. -/
theorem C1_validate_payment_tx_stub :
    cTxBad.vin.map CTxIn.prevout = [{ hash := [8], n := 3 }] ∧
    ({ hash := [8], n := 3 } : COutPoint) ≠ cRecvFull.params.deposit_outpoint ∧
    calc_payment_value cTxBad = Except.ok 5 ∧
    cRecvFull.total_sent = Except.ok 6 ∧
    cRecvFull.validate_payment_tx cTxBad = Except.ok () ∧
    cRecvFull.recv_payment_tx cTxBad = (cRecvFull, Except.ok (-1)) :=
  ⟨rfl, by decide, rfl, rfl, rfl, rfl⟩

/-- C4 counterexample: evaluated at a concrete sender state, the signed
payment transaction produced by `make_payment_tx` carries the all-ones
final sequence number `0xFFFFFFFF` on its input, refuting the claim that
the input sequence number is not the all-ones final value. -/
theorem C4_counterexample_final_sequence :
    (cSender.make_payment_tx 3 2).2 = Except.ok (okTx (cSender.make_payment_tx 3 2).2) ∧
    (okTx (cSender.make_payment_tx 3 2).2).vin.map CTxIn.nSequence = [0xFFFFFFFF] :=
  ⟨rfl, rfl⟩

/-- C4 (amended): every payment transaction produced by `make_payment_tx`
(and hence by `send_payment`, which returns the same result) has exactly
one input spending the deposit outpoint, exactly two outputs with output 0
the change to the sender and output 1 the payment to the receiver,
lock-time 0, and an input sequence number equal to the all-ones final value
`0xFFFFFFFF` (the library default, which the sender never overrides). -/
theorem C4_amended_payment_tx_structure (st : SenderChannel) (d fee : Int)
    (tx : CTransaction) (h : (st.make_payment_tx d fee).2 = Except.ok tx) :
    tx.vin.length = 1 ∧
    tx.vin.map CTxIn.prevout = [st.params.deposit_outpoint] ∧
    tx.vin.map CTxIn.nSequence = [0xFFFFFFFF] ∧
    tx.vout.length = 2 ∧
    tx.vout.map CTxOut.scriptPubKey =
      [st.sender_change_scriptPubKey, st.params.receiver_dest_scriptPubKey] ∧
    tx.nLockTime = 0 ∧
    (st.send_payment d fee).2 = (st.make_payment_tx d fee).2 := by
  obtain ⟨ts, hts, hd, hc, htx⟩ := make_payment_tx_ok_inv st d fee tx h
  subst htx
  exact ⟨rfl, rfl, rfl, rfl, rfl, rfl, send_payment_snd st d fee⟩

/-- The transaction the concrete sender fixture produces for delta 3, fee 2. -/
def cTx4 : CTransaction := okTx (cSender.make_payment_tx 3 2).2

/-- C4 amended witness at the concrete sender fixture. -/
theorem C4_amended_payment_tx_structure_witness :
    (cSender.make_payment_tx 3 2).2 = Except.ok cTx4 ∧
    (cTx4.vin.length = 1 ∧
     cTx4.vin.map CTxIn.prevout = [cSender.params.deposit_outpoint] ∧
     cTx4.vin.map CTxIn.nSequence = [0xFFFFFFFF] ∧
     cTx4.vout.length = 2 ∧
     cTx4.vout.map CTxOut.scriptPubKey =
       [cSender.sender_change_scriptPubKey, cSender.params.receiver_dest_scriptPubKey] ∧
     cTx4.nLockTime = 0 ∧
     (cSender.send_payment 3 2).2 = (cSender.make_payment_tx 3 2).2) :=
  ⟨rfl, C4_amended_payment_tx_structure cSender 3 2 cTx4 rfl⟩

/-- C3: for a sender state with deposit value `D` and total sent `s`, if
`d ≥ 0` and the change `D − s − d − f` is nonnegative, `make_payment_tx`
(and `send_payment`) returns a transaction whose change output value is
`D − s − d − f`, whose receiver-destined output value is `s + d`, and whose
two output values plus the fee sum exactly to `D`. -/
theorem C3_balance_conservation (st : SenderChannel) (d fee s : Int)
    (hs : st.total_sent = Except.ok s) (hd : 0 ≤ d)
    (hc : 0 ≤ st.deposit_nValue - s - d - fee) :
    (st.make_payment_tx d fee).2 = Except.ok (payment_tx_of st d fee s) ∧
    (st.send_payment d fee).2 = Except.ok (payment_tx_of st d fee s) ∧
    (payment_tx_of st d fee s).vout.map CTxOut.nValue =
      [st.deposit_nValue - s - d - fee, s + d] ∧
    (st.deposit_nValue - s - d - fee) + (s + d) + fee = st.deposit_nValue := by
  have h1 := make_payment_tx_ok st d fee s hs hd hc
  have h2 : (st.make_payment_tx d fee).2 = Except.ok (payment_tx_of st d fee s) := by
    rw [h1]
  have hv : st.deposit_nValue - (st.deposit_nValue - s - d - fee) - fee = s + d := by ring
  refine ⟨h2, ?_, ?_, by ring⟩
  · rw [send_payment_snd]; exact h2
  · simp [payment_tx_of, MicropaymentParams.make_payment_tx, hv]

/-- C3 witness at the concrete sender fixture (deposit 10, total sent 0,
delta 3, fee 2). -/
theorem C3_balance_conservation_witness :
    cSender.total_sent = Except.ok 0 ∧ (0 : Int) ≤ 3 ∧
    (0 : Int) ≤ cSender.deposit_nValue - 0 - 3 - 2 ∧
    ((cSender.make_payment_tx 3 2).2 = Except.ok (payment_tx_of cSender 3 2 0) ∧
     (cSender.send_payment 3 2).2 = Except.ok (payment_tx_of cSender 3 2 0) ∧
     (payment_tx_of cSender 3 2 0).vout.map CTxOut.nValue =
       [cSender.deposit_nValue - 0 - 3 - 2, 0 + 3] ∧
     (cSender.deposit_nValue - 0 - 3 - 2) + (0 + 3) + 2 = cSender.deposit_nValue) :=
  ⟨rfl, by decide, by decide,
   C3_balance_conservation cSender 3 2 0 rfl (by decide) (by decide)⟩

/-- C6: `make_refund_tx` leaves the state unchanged and returns a
transaction with one input spending the deposit outpoint at sequence 0, one
output of value `depositValue − fee` paying the sender's change script, and
lock-time `expiry_nlocktime`; the result does not depend on
`last_payment_tx`. -/
theorem C6_refund_tx (st : SenderChannel) (fee : Int) :
    (st.make_refund_tx fee).1 = st ∧
    ((st.make_refund_tx fee).2).vin.map (fun txin => (txin.prevout, txin.nSequence)) =
      [(st.params.deposit_outpoint, 0)] ∧
    ((st.make_refund_tx fee).2).vout =
      [{ nValue := st.deposit_nValue - fee,
         scriptPubKey := st.sender_change_scriptPubKey }] ∧
    ((st.make_refund_tx fee).2).nLockTime = st.params.expiry_nlocktime ∧
    (∀ ltx : Option CTransaction,
      (({ st with last_payment_tx := ltx } : SenderChannel).make_refund_tx fee).2 =
        (st.make_refund_tx fee).2) :=
  ⟨rfl, rfl, rfl, rfl, fun _ => rfl⟩

/-- C6 witness at the concrete sender fixture with fee 2. -/
theorem C6_refund_tx_witness :
    (cSender.make_refund_tx 2).1 = cSender ∧
    ((cSender.make_refund_tx 2).2).vin.map (fun txin => (txin.prevout, txin.nSequence)) =
      [(cSender.params.deposit_outpoint, 0)] ∧
    ((cSender.make_refund_tx 2).2).vout =
      [{ nValue := cSender.deposit_nValue - 2,
         scriptPubKey := cSender.sender_change_scriptPubKey }] ∧
    ((cSender.make_refund_tx 2).2).nLockTime = cSender.params.expiry_nlocktime ∧
    (∀ ltx : Option CTransaction,
      (({ cSender with last_payment_tx := ltx } : SenderChannel).make_refund_tx 2).2 =
        (cSender.make_refund_tx 2).2) :=
  C6_refund_tx cSender 2

/-- C7: `make_payment_tx` fails with the negative-amount `ValueError`
exactly when `d < 0`, fails with the insufficient-funds `ValueError`
exactly when `d ≥ 0` and the change `D − s − d − f` is negative, and
succeeds otherwise; it never changes the state, and `send_payment` stores
the new transaction only on success, leaving the state untouched on any
failure. -/
theorem C7_make_payment_tx_errors (st : SenderChannel) (d fee s : Int)
    (hs : st.total_sent = Except.ok s) :
    (st.make_payment_tx d fee).1 = st ∧
    (d < 0 → (st.make_payment_tx d fee).2 =
      Except.error (PyErr.valueError "Amount to send must be non-negative")) ∧
    (0 ≤ d → st.deposit_nValue - s - d - fee < 0 →
      (st.make_payment_tx d fee).2 =
        Except.error (PyErr.valueError "Amount greather than unspent deposit")) ∧
    (0 ≤ d → 0 ≤ st.deposit_nValue - s - d - fee →
      (st.make_payment_tx d fee).2 = Except.ok (payment_tx_of st d fee s)) ∧
    (∀ e, (st.make_payment_tx d fee).2 = Except.error e →
      st.send_payment d fee = (st, Except.error e)) ∧
    (∀ tx, (st.make_payment_tx d fee).2 = Except.ok tx →
      st.send_payment d fee = ({ st with last_payment_tx := some tx }, Except.ok tx)) := by
  refine ⟨make_payment_tx_fst st d fee, ?_, ?_, ?_,
    send_payment_err st d fee, send_payment_ok st d fee⟩
  · intro hd
    simp [SenderChannel.make_payment_tx, hd]
  · intro hd hc
    simp [SenderChannel.make_payment_tx, hs, not_lt.mpr hd, hc]
  · intro hd hc
    rw [make_payment_tx_ok st d fee s hs hd hc]

/-- C7 witness at the concrete sender fixture (deposit 10, total sent 0,
delta 3, fee 2). -/
theorem C7_make_payment_tx_errors_witness :
    cSender.total_sent = Except.ok 0 ∧
    ((cSender.make_payment_tx 3 2).1 = cSender ∧
     ((3 : Int) < 0 → (cSender.make_payment_tx 3 2).2 =
       Except.error (PyErr.valueError "Amount to send must be non-negative")) ∧
     ((0 : Int) ≤ 3 → cSender.deposit_nValue - 0 - 3 - 2 < 0 →
       (cSender.make_payment_tx 3 2).2 =
         Except.error (PyErr.valueError "Amount greather than unspent deposit")) ∧
     ((0 : Int) ≤ 3 → (0 : Int) ≤ cSender.deposit_nValue - 0 - 3 - 2 →
       (cSender.make_payment_tx 3 2).2 = Except.ok (payment_tx_of cSender 3 2 0)) ∧
     (∀ e, (cSender.make_payment_tx 3 2).2 = Except.error e →
       cSender.send_payment 3 2 = (cSender, Except.error e)) ∧
     (∀ tx, (cSender.make_payment_tx 3 2).2 = Except.ok tx →
       cSender.send_payment 3 2 =
         ({ cSender with last_payment_tx := some tx }, Except.ok tx))) :=
  ⟨rfl, C7_make_payment_tx_errors cSender 3 2 0 rfl⟩

/-- C8: `total_sent` is derived — 0 with no payment, else
`calc_payment_value(last_payment_tx)` — and after a successful
`send_payment(d, fee)` with `d ≥ 0` and previous total `s`, the new state's
`total_sent` is exactly `s + d`, hence non-decreasing. -/
theorem C8_total_sent_invariant (st : SenderChannel) (d fee s : Int)
    (hs : st.total_sent = Except.ok s) :
    (st.last_payment_tx = none → st.total_sent = Except.ok 0) ∧
    (∀ tx, st.last_payment_tx = some tx → st.total_sent = calc_payment_value tx) ∧
    (0 ≤ d → ∀ st1 tx, st.send_payment d fee = (st1, Except.ok tx) →
      st1.total_sent = Except.ok (s + d) ∧ s ≤ s + d) := by
  refine ⟨?_, ?_, ?_⟩
  · intro h
    simp [SenderChannel.total_sent, h]
  · intro tx h
    simp [SenderChannel.total_sent, h]
  · intro hd st1 tx h
    have h2 : (st.send_payment d fee).2 = Except.ok tx := by rw [h]
    rw [send_payment_snd] at h2
    obtain ⟨ts, hts, _, hc, htx⟩ := make_payment_tx_ok_inv st d fee tx h2
    rw [hts] at hs
    injection hs with hts'
    subst hts'
    have hsend := send_payment_ok st d fee tx h2
    rw [hsend] at h
    have hst1 : st1 = { st with last_payment_tx := some tx } := by
      have := congrArg Prod.fst h
      simpa using this.symm
    subst hst1
    constructor
    · have hv : st.deposit_nValue - (st.deposit_nValue - ts - d - fee) - fee = ts + d := by
        ring
      simp [SenderChannel.total_sent, htx, calc_payment_tx_of, hv]
    · omega

/-- C8 witness at the concrete sender fixture (total sent 0, delta 3, fee 2). -/
theorem C8_total_sent_invariant_witness :
    cSender.total_sent = Except.ok 0 ∧
    ((cSender.last_payment_tx = none → cSender.total_sent = Except.ok 0) ∧
     (∀ tx, cSender.last_payment_tx = some tx →
       cSender.total_sent = calc_payment_value tx) ∧
     ((0 : Int) ≤ 3 → ∀ st1 tx, cSender.send_payment 3 2 = (st1, Except.ok tx) →
       st1.total_sent = Except.ok (0 + 3) ∧ (0 : Int) ≤ 0 + 3)) :=
  ⟨rfl, C8_total_sent_invariant cSender 3 2 0 rfl⟩

lemma calc_payment_value_err (tx : CTransaction) (e : PyErr)
    (h : calc_payment_value tx = Except.error e) : e = PyErr.indexError := by
  unfold calc_payment_value at h
  cases hout : tx.vout[1]? <;> rw [hout] at h <;> simp_all

lemma recv_payment_tx_calc_err (st : ReceiverChannel) (tx : CTransaction) (e : PyErr)
    (h : calc_payment_value tx = Except.error e) :
    st.recv_payment_tx tx = (st, Except.error e) := by
  simp [ReceiverChannel.recv_payment_tx, ReceiverChannel.validate_payment_tx, h]

lemma recv_payment_tx_none (st : ReceiverChannel) (tx : CTransaction) (v : Int)
    (hv : calc_payment_value tx = Except.ok v) (hn : st.last_payment_tx = none) :
    st.recv_payment_tx tx = ({ st with last_payment_tx := some tx }, Except.ok v) := by
  simp [ReceiverChannel.recv_payment_tx, ReceiverChannel.validate_payment_tx, hv, hn]

lemma recv_payment_tx_last_err (st : ReceiverChannel) (tx last : CTransaction)
    (v : Int) (e : PyErr)
    (hv : calc_payment_value tx = Except.ok v)
    (hl : st.last_payment_tx = some last)
    (hlv : calc_payment_value last = Except.error e) :
    st.recv_payment_tx tx = (st, Except.error e) := by
  simp [ReceiverChannel.recv_payment_tx, ReceiverChannel.validate_payment_tx, hv, hl, hlv]

lemma recv_payment_tx_some (st : ReceiverChannel) (tx last : CTransaction) (v lastv : Int)
    (hv : calc_payment_value tx = Except.ok v)
    (hl : st.last_payment_tx = some last)
    (hlv : calc_payment_value last = Except.ok lastv) :
    st.recv_payment_tx tx =
      (if v - lastv > 0 then { st with last_payment_tx := some tx } else st,
       Except.ok (v - lastv)) := by
  by_cases h : v - lastv > 0 <;>
    simp [ReceiverChannel.recv_payment_tx, ReceiverChannel.validate_payment_tx,
      hv, hl, hlv, h]

lemma recv_payment_tx_mono_step (st : ReceiverChannel) (tx last : CTransaction)
    (lastv : Int)
    (hl : st.last_payment_tx = some last)
    (hlv : calc_payment_value last = Except.ok lastv) :
    ∃ last1 lastv1, (st.recv_payment_tx tx).1.last_payment_tx = some last1 ∧
      calc_payment_value last1 = Except.ok lastv1 ∧ lastv ≤ lastv1 := by
  cases hv : calc_payment_value tx with
  | error e =>
    rw [recv_payment_tx_calc_err st tx e hv]
    exact ⟨last, lastv, hl, hlv, le_refl _⟩
  | ok v =>
    rw [recv_payment_tx_some st tx last v lastv hv hl hlv]
    by_cases h : v - lastv > 0
    · exact ⟨tx, v, by simp [h], hv, by omega⟩
    · exact ⟨last, lastv, by simp [h, hl], hlv, le_refl _⟩

lemma recv_many_mono (txs : List CTransaction) : ∀ (st : ReceiverChannel)
    (last : CTransaction) (lastv : Int), st.last_payment_tx = some last →
    calc_payment_value last = Except.ok lastv →
    ∃ last1 lastv1, (recv_many st txs).last_payment_tx = some last1 ∧
      calc_payment_value last1 = Except.ok lastv1 ∧ lastv ≤ lastv1 := by
  induction txs with
  | nil =>
    intro st last lastv hl hlv
    exact ⟨last, lastv, hl, hlv, le_refl _⟩
  | cons tx txs ih =>
    intro st last lastv hl hlv
    obtain ⟨last1, lastv1, hl1, hlv1, hle1⟩ :=
      recv_payment_tx_mono_step st tx last lastv hl hlv
    obtain ⟨last2, lastv2, hl2, hlv2, hle2⟩ :=
      ih (st.recv_payment_tx tx).1 last1 lastv1 hl1 hlv1
    refine ⟨last2, lastv2, ?_, hlv2, le_trans hle1 hle2⟩
    simpa [recv_many] using hl2

/-- C2: on a first payment `recv_payment_tx` stores the transaction and
returns its full value; on a later payment with previous stored value
`lastv` and new value `v` it returns `v − lastv` and replaces the stored
transaction exactly when `v − lastv > 0`; consequently the stored
transaction's value is monotonically non-decreasing over any sequence of
`recv_payment_tx` calls. -/
theorem C2_recv_payment_tx_behavior (st : ReceiverChannel) (tx : CTransaction) (v : Int)
    (hv : calc_payment_value tx = Except.ok v) :
    (st.last_payment_tx = none →
      st.recv_payment_tx tx = ({ st with last_payment_tx := some tx }, Except.ok v)) ∧
    (∀ last lastv, st.last_payment_tx = some last →
      calc_payment_value last = Except.ok lastv →
      st.recv_payment_tx tx =
        (if v - lastv > 0 then { st with last_payment_tx := some tx } else st,
         Except.ok (v - lastv))) ∧
    (∀ (txs : List CTransaction) (last : CTransaction) (lastv : Int),
      st.last_payment_tx = some last → calc_payment_value last = Except.ok lastv →
      ∃ last1 lastv1, (recv_many st txs).last_payment_tx = some last1 ∧
        calc_payment_value last1 = Except.ok lastv1 ∧ lastv ≤ lastv1) :=
  ⟨fun hn => recv_payment_tx_none st tx v hv hn,
   fun last lastv hl hlv => recv_payment_tx_some st tx last v lastv hv hl hlv,
   fun txs last lastv hl hlv => recv_many_mono txs st last lastv hl hlv⟩

/-- A payment transaction paying the receiver 8 at output 1. -/
def cTxHigher : CTransaction :=
  { vin := [{ prevout := cParams.deposit_outpoint,
              scriptSig := [ScriptElem.data [6]], nSequence := 0xFFFFFFFF }],
    vout := [{ nValue := 0, scriptPubKey := cChangeScript },
             { nValue := 8, scriptPubKey := cParams.receiver_dest_scriptPubKey }],
    nLockTime := 0, nVersion := 1 }

/-- C2 witness at the concrete receiver fixture (stored value 6, new
payment value 8). -/
theorem C2_recv_payment_tx_behavior_witness :
    calc_payment_value cTxHigher = Except.ok 8 ∧
    ((cRecvFull.last_payment_tx = none →
       cRecvFull.recv_payment_tx cTxHigher =
         ({ cRecvFull with last_payment_tx := some cTxHigher }, Except.ok 8)) ∧
     (∀ last lastv, cRecvFull.last_payment_tx = some last →
       calc_payment_value last = Except.ok lastv →
       cRecvFull.recv_payment_tx cTxHigher =
         (if 8 - lastv > 0 then { cRecvFull with last_payment_tx := some cTxHigher }
          else cRecvFull,
          Except.ok (8 - lastv))) ∧
     (∀ (txs : List CTransaction) (last : CTransaction) (lastv : Int),
       cRecvFull.last_payment_tx = some last →
       calc_payment_value last = Except.ok lastv →
       ∃ last1 lastv1, (recv_many cRecvFull txs).last_payment_tx = some last1 ∧
         calc_payment_value last1 = Except.ok lastv1 ∧ lastv ≤ lastv1)) :=
  ⟨rfl, C2_recv_payment_tx_behavior cRecvFull cTxHigher 8 rfl⟩

/-- C5 counterexample: at a concrete receiver state with no accepted
payment, `make_finalization_tx` does not fail with the designed `NoPayment`
error; it raises the unhandled none-access error from handing `None` to the
digest computation. -/
theorem C5_counterexample_no_payment_error :
    cRecvEmpty.make_finalization_tx = Except.error PyErr.typeError ∧
    cRecvEmpty.make_finalization_tx ≠ Except.error PyErr.noPayment :=
  ⟨rfl, by
    intro h
    rw [show cRecvEmpty.make_finalization_tx = Except.error PyErr.typeError from rfl] at h
    injection h with h2
    exact PyErr.noConfusion h2⟩

/-- C5 (amended): with no accepted payment `make_finalization_tx` raises
the unhandled none-access error (not a designed `NoPayment` failure);
otherwise it returns a transaction preserving the last accepted payment
transaction's outputs, lock-time, version, input outpoint and input
sequence, differing from it only in the input's unlocking data, which is
the accepted transaction's unlocking data extended by the receiver-branch
selection `{signature, 1, deposit_redeemScript}`. -/
theorem C5_amended_finalization_fidelity (st : ReceiverChannel) :
    (st.last_payment_tx = none →
      st.make_finalization_tx = Except.error PyErr.typeError) ∧
    (∀ last txin0, st.last_payment_tx = some last → last.vin[0]? = some txin0 →
      st.make_finalization_tx = Except.ok
        { vin := [{ prevout := txin0.prevout,
                    scriptSig := txin0.scriptSig ++
                      [ScriptElem.data (st.receiver_seckey.sign
                          (Digest.sigHash st.params.deposit_redeemScript last 0
                            SIGHASH_ALL) ++ [SIGHASH_ALL]),
                       ScriptElem.num 1,
                       ScriptElem.data (serializeScript st.params.deposit_redeemScript)],
                    nSequence := txin0.nSequence }],
          vout := last.vout,
          nLockTime := last.nLockTime,
          nVersion := last.nVersion }) := by
  constructor
  · intro h
    simp [ReceiverChannel.make_finalization_tx, h]
  · intro last txin0 hl hv
    simp [ReceiverChannel.make_finalization_tx, hl, hv]

/-- The single input of the stored payment transaction fixture. -/
def cTxIn0 : CTxIn :=
  { prevout := cParams.deposit_outpoint,
    scriptSig := [ScriptElem.data [5]], nSequence := 0xFFFFFFFF }

/-- C5 amended witness at the concrete receiver fixture holding
`cTxStored`. -/
theorem C5_amended_finalization_fidelity_witness :
    cRecvFull.last_payment_tx = some cTxStored ∧
    cTxStored.vin[0]? = some cTxIn0 ∧
    cRecvFull.make_finalization_tx = Except.ok
      { vin := [{ prevout := cTxIn0.prevout,
                  scriptSig := cTxIn0.scriptSig ++
                    [ScriptElem.data (cRecvFull.receiver_seckey.sign
                        (Digest.sigHash cRecvFull.params.deposit_redeemScript cTxStored 0
                          SIGHASH_ALL) ++ [SIGHASH_ALL]),
                     ScriptElem.num 1,
                     ScriptElem.data (serializeScript cRecvFull.params.deposit_redeemScript)],
                  nSequence := cTxIn0.nSequence }],
        vout := cTxStored.vout,
        nLockTime := cTxStored.nLockTime,
        nVersion := cTxStored.nVersion } :=
  ⟨rfl, rfl, (C5_amended_finalization_fidelity cRecvFull).2 cTxStored cTxIn0 rfl rfl⟩

/-- C10: the receiver-destined payment value is read at the fixed output
index 1 by `calc_payment_value` (and hence by `total_sent`); on a
transaction with fewer than two outputs `recv_payment_tx` raises
`IndexError`, leaving the state unchanged, rather than failing with the
specification's `InvalidPayment`; indeed `recv_payment_tx` never fails with
`InvalidPayment` at all. -/
theorem C10_fixed_output_index (st : ReceiverChannel) (tx : CTransaction) :
    (∀ txout, tx.vout[1]? = some txout →
      calc_payment_value tx = Except.ok txout.nValue) ∧
    (∀ last, st.last_payment_tx = some last →
      st.total_sent = calc_payment_value last) ∧
    (tx.vout.length < 2 →
      calc_payment_value tx = Except.error PyErr.indexError ∧
      st.recv_payment_tx tx = (st, Except.error PyErr.indexError)) ∧
    (st.recv_payment_tx tx).2 ≠ Except.error PyErr.invalidPayment := by
  refine ⟨?_, ?_, ?_, ?_⟩
  · intro txout h
    simp [calc_payment_value, h]
  · intro last h
    simp [ReceiverChannel.total_sent, h]
  · intro hlen
    have hnone : tx.vout[1]? = none := List.getElem?_eq_none (by omega)
    have hcalc : calc_payment_value tx = Except.error PyErr.indexError := by
      simp [calc_payment_value, hnone]
    exact ⟨hcalc, recv_payment_tx_calc_err st tx PyErr.indexError hcalc⟩
  · cases hv : calc_payment_value tx with
    | error e =>
      have he := calc_payment_value_err tx e hv
      subst he
      rw [recv_payment_tx_calc_err st tx PyErr.indexError hv]
      simp
    | ok v =>
      cases hl : st.last_payment_tx with
      | none =>
        rw [recv_payment_tx_none st tx v hv hl]
        simp
      | some last =>
        cases hlv : calc_payment_value last with
        | error e =>
          have he := calc_payment_value_err last e hlv
          subst he
          rw [recv_payment_tx_last_err st tx last v PyErr.indexError hv hl hlv]
          simp
        | ok lastv =>
          rw [recv_payment_tx_some st tx last v lastv hv hl hlv]
          simp

/-- C10 witness at the concrete empty receiver fixture and the one-output
transaction fixture. -/
theorem C10_fixed_output_index_witness :
    cTxShort.vout.length < 2 ∧
    ((∀ txout, cTxShort.vout[1]? = some txout →
       calc_payment_value cTxShort = Except.ok txout.nValue) ∧
     (∀ last, cRecvEmpty.last_payment_tx = some last →
       cRecvEmpty.total_sent = calc_payment_value last) ∧
     (cTxShort.vout.length < 2 →
       calc_payment_value cTxShort = Except.error PyErr.indexError ∧
       cRecvEmpty.recv_payment_tx cTxShort = (cRecvEmpty, Except.error PyErr.indexError)) ∧
     (cRecvEmpty.recv_payment_tx cTxShort).2 ≠ Except.error PyErr.invalidPayment) :=
  ⟨by decide, C10_fixed_output_index cRecvEmpty cTxShort⟩
